import Mathlib

/-!
Verification of the ngauth resource-server sample
(`docs/samples/testcontainers-python/api.py`): the JWT verification and
scope-authorization pipeline.  The pipeline is embedded shallowly:

* JSON claim values (`JValue`) and claim sets (`ClaimSet`) model the decoded
  JWT payload dictionaries;
* `pySplitWs` models Python `str.split()` with no arguments (split on runs of
  whitespace, dropping empty fragments);
* `scope_checker` embeds the inner function of `require_scope` in `api.py`;
* `get_signing_key` models `PyJWKClient.get_signing_key` (cached key set,
  exactly one refresh on a missing `kid`);
* `jwt_decode` models `jwt.decode` as invoked by `verify_token` in `api.py`
  (pinned algorithm list, signature check, then `iat`/`nbf`/`exp` validation;
  the audience branch is omitted because `api.py` passes `verify_aud: False`,
  making it unreachable);
* `http_bearer` models FastAPI's `HTTPBearer` dependency (auto error),
  and `access_gate` the composed dependency chain of a protected route.

Cryptographic signature checking is abstracted as an explicit oracle
parameter `SigOracle`; theorems quantify over it, so they hold for any
cryptography.
-/

/-- JSON values as they occur in JWT claim sets.  Arrays are restricted to
string elements (the only arrays relevant here are lists of scope names). -/
inductive JValue where
  | str (s : String)
  | num (n : Int)
  | boolean (b : Bool)
  | null
  | arr (elems : List String)
deriving DecidableEq

/-- A decoded JWT payload: association list from claim name to value,
modelling the Python dict returned by `jwt.decode`. -/
abbrev ClaimSet := List (String × JValue)

/-- Dictionary lookup (`dict.get`): first binding of the key, if any. -/
def cget (m : ClaimSet) (k : String) : Option JValue :=
  match m with
  | [] => none
  | (k0, v) :: rest => if k0 = k then some v else cget rest k

/-- Python truthiness of a JSON value: empty string, zero, `False`, `None`
and the empty array are falsy, everything else is truthy. -/
def truthy : JValue → Bool
  | JValue.str s => s != ""
  | JValue.num n => n != 0
  | JValue.boolean b => b
  | JValue.null => false
  | JValue.arr xs => xs != []

/-- Whether a JSON value is a string. -/
def jIsStr : JValue → Bool
  | JValue.str _ => true
  | _ => false

/-- Python whitespace characters recognised by `str.split()`. -/
def pyIsSpace (c : Char) : Bool :=
  c = ' ' || c = '\t' || c = '\n' || c = '\r' || c = '\x0c' || c = '\x0b'

/-- Accumulating splitter over the character list: `acc` holds the current
word reversed; whitespace ends a word, empty fragments are dropped. -/
def wsSplitAux : List Char → List Char → List String
  | [], [] => []
  | [], acc => [String.mk acc.reverse]
  | c :: cs, acc =>
    if pyIsSpace c then
      match acc with
      | [] => wsSplitAux cs []
      | _ => String.mk acc.reverse :: wsSplitAux cs []
    else wsSplitAux cs (c :: acc)

/-- Python `s.split()` with no arguments: split on runs of whitespace and
drop empty fragments (so `"".split() = []` and `" ".split() = []`). -/
def pySplitWs (s : String) : List String :=
  wsSplitAux s.toList []

/-- The detail message of the 403 raised by `scope_checker`
(`f"Insufficient scope. Required: {required_scope}"`). -/
def insufficient_scope_detail (required_scope : String) : String :=
  "Insufficient scope. Required: " ++ required_scope

/-- Outcome of the scope check: pass the claims through, raise the 403
`HTTPException`, or hit the `AttributeError` Python raises when `.split()`
is called on a truthy non-string value. -/
inductive ScopeOutcome where
  | granted (claims : ClaimSet)
  | forbidden (detail : String)
  | typeError
deriving DecidableEq

/-- Embedding of the inner `scope_checker` of `require_scope` in `api.py`:
`token_scope = token_data.get("scope", "")`;
`scopes = token_scope.split() if token_scope else []`;
403 when `required_scope not in scopes`, otherwise `return token_data`. -/
def scope_checker (required_scope : String) (token_data : ClaimSet) : ScopeOutcome :=
  let token_scope := (cget token_data "scope").getD (JValue.str "")
  let scopes? : Option (List String) :=
    if truthy token_scope then
      match token_scope with
      | JValue.str s => some (pySplitWs s)
      | _ => none
    else
      some []
  match scopes? with
  | none => ScopeOutcome.typeError
  | some scopes =>
    if required_scope ∉ scopes then
      ScopeOutcome.forbidden (insufficient_scope_detail required_scope)
    else
      ScopeOutcome.granted token_data

/-- Whether the `"scope"` claim is absent or bound to a string: the
precondition under which the scope check cannot hit the `.split()`
attribute error. -/
def scopeStrOk (claims : ClaimSet) : Bool :=
  match cget claims "scope" with
  | none => true
  | some (JValue.str _) => true
  | some _ => false

/-- The granted-scope string of a claim set: the `"scope"` value when it is
a string, `""` otherwise (matching the `dict.get` default). -/
def scopeStr (claims : ClaimSet) : String :=
  match cget claims "scope" with
  | some (JValue.str s) => s
  | _ => ""

/-- Whether a scope-check outcome is an actual decision (grant or 403)
rather than the unhandled attribute error. -/
def isDecision : ScopeOutcome → Bool
  | ScopeOutcome.granted _ => true
  | ScopeOutcome.forbidden _ => true
  | ScopeOutcome.typeError => false

/-- A public signing key as cached by the JWKS client: key identifier and
opaque key material. -/
structure SigningKey where
  kid : String
  key : String
deriving DecidableEq

/-- The cached JWKS document: the list of parsed signing keys. -/
abbrev KeySet := List SigningKey

/-- Key-resolution failures of the JWKS client: `notFound` (the `kid` is
absent from a successfully fetched set) versus `sourceUnavailable`
(network or parse failure while fetching). -/
inductive KeyErr where
  | notFound
  | sourceUnavailable
deriving DecidableEq

/-- Lookup of a key by `kid` in a key set. -/
def lookupKid (ks : KeySet) (kid : String) : Option SigningKey :=
  ks.find? (fun k => k.kid = kid)

/-- Modelled from the spec: the single re-fetch the KeySource performs when a
`kid` misses the cache (the body of `PyJWKClient.get_signing_key` after the
first miss, library code not under `src/`).  `fetches` is the environment's
sequence of fetch responses (`none` = network/parse failure); the result
carries the resolution outcome, the number of fetches consumed, and the new
cache. -/
def refreshOnce (fetches : List (Option KeySet)) (kid : String)
    (keep : Option KeySet) : Except KeyErr SigningKey × Nat × Option KeySet :=
  match fetches with
  | [] => (Except.error KeyErr.sourceUnavailable, 1, keep)
  | none :: _ => (Except.error KeyErr.sourceUnavailable, 1, keep)
  | some ks :: _ =>
    match lookupKid ks kid with
    | some k => (Except.ok k, 1, some ks)
    | none => (Except.error KeyErr.notFound, 1, some ks)

/-- Modelled from the spec: `KeySource.resolve` / `PyJWKClient.get_signing_key`
(library code not under `src/`): look the `kid` up in the cached key set,
fetching it first if no cache exists; on a miss, perform exactly one re-fetch
before reporting `notFound`. -/
def get_signing_key (cache : Option KeySet) (fetches : List (Option KeySet))
    (kid : String) : Except KeyErr SigningKey × Nat × Option KeySet :=
  match cache with
  | some ks =>
    match lookupKid ks kid with
    | some k => (Except.ok k, 0, some ks)
    | none => refreshOnce fetches kid (some ks)
  | none =>
    match fetches with
    | [] => (Except.error KeyErr.sourceUnavailable, 1, none)
    | none :: _ => (Except.error KeyErr.sourceUnavailable, 1, none)
    | some ks :: rest =>
      match lookupKid ks kid with
      | some k => (Except.ok k, 1, some ks)
      | none =>
        let r := refreshOnce rest kid (some ks)
        (r.1, r.2.1 + 1, r.2.2)

/-- The protected header of a compact JWT, as read (unverified) by the
verifier: declared algorithm and key identifier. -/
structure TokenHeader where
  alg : String
  kid : String
deriving DecidableEq

/-- A structurally well-formed compact JWT after base64/JSON decoding:
header, payload claim set, and the (opaque) signature segment. -/
structure Token where
  header : TokenHeader
  payload : ClaimSet
  sig : String
deriving DecidableEq

/-- A cryptographic signature oracle: given the algorithm name, the key
material and the token, decides whether the token's signature verifies. -/
abbrev SigOracle := String → String → Token → Bool

/-- The classified verification failures of the pipeline (§7 taxonomy). -/
inductive VerificationError where
  | malformed
  | unsupportedAlgorithm
  | unknownKey
  | badSignature
  | expired
  | notYetValid
  | keySourceUnavailable
deriving DecidableEq

/-- Validation of the `iat` claim as `jwt.decode` performs it for the
options used in `api.py`: when present it must be numeric (otherwise
`InvalidIssuedAtError`, modelled as `malformed`); its value is not compared
against the clock. -/
def validateIat (payload : ClaimSet) : Option VerificationError :=
  match cget payload "iat" with
  | none => none
  | some (JValue.num _) => none
  | some _ => some VerificationError.malformed

/-- Validation of the `nbf` claim: reject with `notYetValid` when `nbf` is
present and in the future (non-numeric `nbf` is a decode error). -/
def validateNbf (now : Int) (payload : ClaimSet) : Option VerificationError :=
  match cget payload "nbf" with
  | none => none
  | some (JValue.num nbf) =>
    if now < nbf then some VerificationError.notYetValid else none
  | some _ => some VerificationError.malformed

/-- Validation of the `exp` claim: reject with `expired` when `exp` is
present and not in the future (non-numeric `exp` is a decode error). -/
def validateExp (now : Int) (payload : ClaimSet) : Option VerificationError :=
  match cget payload "exp" with
  | none => none
  | some (JValue.num e) =>
    if e ≤ now then some VerificationError.expired else none
  | some _ => some VerificationError.malformed

/-- Registered-claim validation in the order `jwt.decode` applies it for the
options used in `api.py` (`iat`, then `nbf`, then `exp`; issuer is not
supplied and `verify_aud` is `False`, so those branches are inert). -/
def validateClaims (now : Int) (payload : ClaimSet) : Option VerificationError :=
  match validateIat payload with
  | some e => some e
  | none =>
    match validateNbf now payload with
    | some e => some e
    | none => validateExp now payload

/-- Model of `jwt.decode(token, key, algorithms=..., options=\x7b"verify_aud":
False\x7d)` as called in `api.py`: reject `unsupportedAlgorithm` unless the
header's declared algorithm is in the allowed list; verify the signature with
that (pinned) algorithm, rejecting `badSignature` on mismatch; then validate
the registered claims.  The audience branch is omitted: `verify_aud` is
`False` at the call site, so it is unreachable. -/
def jwt_decode (checkSig : SigOracle) (key : String) (algorithms : List String)
    (now : Int) (tok : Token) : Except VerificationError ClaimSet :=
  if tok.header.alg ∈ algorithms then
    if checkSig tok.header.alg key tok then
      match validateClaims now tok.payload with
      | some e => Except.error e
      | none => Except.ok tok.payload
    else Except.error VerificationError.badSignature
  else Except.error VerificationError.unsupportedAlgorithm

/-- Embedding of the body of `verify_token` in `api.py`: resolve the signing
key from the token's `kid` via the JWKS client, then decode with the pinned
algorithm list `["RS256"]`.  Returns the verification outcome together with
the number of JWKS fetches performed and the resulting key cache. -/
def verify_token (checkSig : SigOracle) (cache : Option KeySet)
    (fetches : List (Option KeySet)) (now : Int) (tok : Token) :
    Except VerificationError ClaimSet × Nat × Option KeySet :=
  let r := get_signing_key cache fetches tok.header.kid
  match r.1 with
  | Except.error KeyErr.notFound =>
    (Except.error VerificationError.unknownKey, r.2.1, r.2.2)
  | Except.error KeyErr.sourceUnavailable =>
    (Except.error VerificationError.keySourceUnavailable, r.2.1, r.2.2)
  | Except.ok k => (jwt_decode checkSig k.key ["RS256"] now tok, r.2.1, r.2.2)

instance {ε α : Type} [DecidableEq ε] [DecidableEq α] : DecidableEq (Except ε α) :=
  fun x y =>
    match x, y with
    | Except.ok a, Except.ok b =>
      if h : a = b then Decidable.isTrue (by rw [h])
      else Decidable.isFalse (by intro hh; cases hh; exact h rfl)
    | Except.error a, Except.error b =>
      if h : a = b then Decidable.isTrue (by rw [h])
      else Decidable.isFalse (by intro hh; cases hh; exact h rfl)
    | Except.ok _, Except.error _ => Decidable.isFalse (by intro hh; cases hh)
    | Except.error _, Except.ok _ => Decidable.isFalse (by intro hh; cases hh)

/-- Whether a verification result is a success. -/
def isOkResult : Except VerificationError ClaimSet → Bool
  | Except.ok _ => true
  | Except.error _ => false

/-- An inbound HTTP request as the gate sees it: the optional
`Authorization` header value. -/
structure Request where
  authorization : Option String
deriving DecidableEq

/-- Outcome of the access gate for one request: admit with the claims,
reject with an HTTP status, detail message and response headers, or crash
with an unhandled exception (HTTP 500). -/
inductive GateOutcome where
  | admitted (claims : ClaimSet)
  | rejected (statusCode : Nat) (detail : String) (headers : List (String × String))
  | crashed
deriving DecidableEq

/-- Split a character list at the first space, dropping the space
(Python `str.partition(" ")` restricted to the pieces the gate uses). -/
def breakAtSpace : List Char → List Char × List Char
  | [] => ([], [])
  | c :: cs =>
    if c = ' ' then ([], cs)
    else
      let p := breakAtSpace cs
      (c :: p.1, p.2)

/-- ASCII lowercasing of a string, character by character. -/
def lowerStr (s : String) : String :=
  String.mk (s.toList.map Char.toLower)

/-- Model of FastAPI's `HTTPBearer` dependency with `auto_error=True`
(the `security` object in `api.py`, library code not under `src/`; the
repository's own test asserts the 403 behaviour): missing header, empty
scheme or empty credentials raise 403 "Not authenticated"; a scheme other
than case-insensitive `bearer` raises 403 "Invalid authentication
credentials"; otherwise the credentials after the first space are returned. -/
def http_bearer (req : Request) : Except (Nat × String) String :=
  match req.authorization with
  | none => Except.error (403, "Not authenticated")
  | some a =>
    let p := breakAtSpace a.toList
    let scheme := String.mk p.1
    let credentials := String.mk p.2
    if a = "" ∨ scheme = "" ∨ credentials = "" then
      Except.error (403, "Not authenticated")
    else if lowerStr scheme = "bearer" then
      Except.ok credentials
    else
      Except.error (403, "Invalid authentication credentials")

/-- The 401 detail produced by `verify_token`'s exception handlers:
`jwt.InvalidTokenError` instances yield "Invalid token: ...", while the JWKS
client errors (not subclasses of `InvalidTokenError`) fall to the generic
handler's "Could not validate credentials: ...". -/
def invalid_token_detail (e : VerificationError) : String :=
  match e with
  | VerificationError.unknownKey => "Could not validate credentials: signing key not found"
  | VerificationError.keySourceUnavailable => "Could not validate credentials: jwks fetch failed"
  | VerificationError.malformed => "Invalid token: malformed"
  | VerificationError.unsupportedAlgorithm => "Invalid token: the specified alg value is not allowed"
  | VerificationError.badSignature => "Invalid token: signature verification failed"
  | VerificationError.expired => "Invalid token: signature has expired"
  | VerificationError.notYetValid => "Invalid token: the token is not yet valid"

/-- The AccessGate: the composed FastAPI dependency chain of a protected
route in `api.py`.  `vf` is the raw-token verifier (the body of
`verify_token`): extract the bearer credentials (`HTTPBearer`), verify them
(any failure becomes a 401 with a `WWW-Authenticate: Bearer` header), then,
when the route declares a required scope, run `scope_checker` (403 on
denial, claims passed through on grant). -/
def access_gate (vf : String → Except VerificationError ClaimSet)
    (requiredScope : Option String) (req : Request) : GateOutcome :=
  match http_bearer req with
  | Except.error p => GateOutcome.rejected p.1 p.2 []
  | Except.ok raw =>
    match vf raw with
    | Except.error e =>
      GateOutcome.rejected 401 (invalid_token_detail e)
        [("WWW-Authenticate", "Bearer")]
    | Except.ok claims =>
      match requiredScope with
      | none => GateOutcome.admitted claims
      | some rs =>
        match scope_checker rs claims with
        | ScopeOutcome.granted c => GateOutcome.admitted c
        | ScopeOutcome.forbidden d => GateOutcome.rejected 403 d []
        | ScopeOutcome.typeError => GateOutcome.crashed

theorem pySplitWs_empty : pySplitWs "" = [] := rfl

theorem scope_checker_forbidden_detail (rs : String) (claims : ClaimSet) (d : String)
    (h : scope_checker rs claims = ScopeOutcome.forbidden d) :
    d = insufficient_scope_detail rs := by
  simp only [scope_checker] at h
  split at h
  · exact absurd h (by simp)
  · split at h
    · exact (ScopeOutcome.forbidden.inj h).symm
    · exact absurd h (by simp)

/-- Claim C2: the scope check grants exactly when the required scope is a
member of the whitespace-split of the claim set's `"scope"` string (exact,
case-sensitive membership), and a claim set whose `"scope"` is absent or the
empty string is denied for every required scope. -/
theorem c2_scope_grant_iff_membership (claims : ClaimSet) (rs : String)
    (hstr : scopeStrOk claims = true) :
    (scope_checker rs claims = ScopeOutcome.granted claims ↔
      rs ∈ pySplitWs (scopeStr claims)) ∧
    ((cget claims "scope" = none ∨ cget claims "scope" = some (JValue.str "")) →
      scope_checker rs claims = ScopeOutcome.forbidden (insufficient_scope_detail rs)) := by
  unfold scopeStrOk at hstr
  cases h : cget claims "scope" with
  | none =>
    constructor
    · simp [scope_checker, scopeStr, h, truthy, pySplitWs_empty]
    · intro _
      simp [scope_checker, h, truthy]
  | some v =>
    cases v with
    | str s =>
      by_cases hs : s = ""
      · subst hs
        constructor
        · simp [scope_checker, scopeStr, h, truthy, pySplitWs_empty]
        · intro _
          simp [scope_checker, h, truthy]
      · constructor
        · by_cases hm : rs ∈ pySplitWs s
          · simp [scope_checker, scopeStr, h, truthy, hs, hm]
          · simp [scope_checker, scopeStr, h, truthy, hs, hm]
        · intro hc
          rcases hc with hc | hc
          · simp at hc
          · simp at hc
            exact absurd hc hs
    | num n => rw [h] at hstr; simp at hstr
    | boolean b => rw [h] at hstr; simp at hstr
    | null => rw [h] at hstr; simp at hstr
    | arr xs => rw [h] at hstr; simp at hstr

theorem c2_scope_grant_iff_membership_witness :
    scopeStrOk [("scope", JValue.str "Read Write")] = true ∧
    ((scope_checker "read" [("scope", JValue.str "Read Write")] =
        ScopeOutcome.granted [("scope", JValue.str "Read Write")] ↔
      "read" ∈ pySplitWs (scopeStr [("scope", JValue.str "Read Write")])) ∧
    ((cget [("scope", JValue.str "Read Write")] "scope" = none ∨
        cget [("scope", JValue.str "Read Write")] "scope" = some (JValue.str "")) →
      scope_checker "read" [("scope", JValue.str "Read Write")] =
        ScopeOutcome.forbidden (insufficient_scope_detail "read"))) :=
  ⟨by decide, c2_scope_grant_iff_membership [("scope", JValue.str "Read Write")] "read" (by decide)⟩

/-- Claim C9: when the scope check grants, it returns the verified claim set
to the downstream handler unchanged. -/
theorem c9_grant_returns_claims_unchanged (rs : String) (claims c : ClaimSet)
    (h : scope_checker rs claims = ScopeOutcome.granted c) : c = claims := by
  simp only [scope_checker] at h
  split at h
  · exact absurd h (by simp)
  · split at h
    · exact absurd h (by simp)
    · exact (ScopeOutcome.granted.inj h).symm

theorem c9_grant_returns_claims_unchanged_witness :
    [("sub", JValue.str "u"), ("scope", JValue.str "read")] =
      [("sub", JValue.str "u"), ("scope", JValue.str "read")] :=
  c9_grant_returns_claims_unchanged "read"
    [("sub", JValue.str "u"), ("scope", JValue.str "read")]
    [("sub", JValue.str "u"), ("scope", JValue.str "read")] (by decide)

/-- Claim C10: when the `"scope"` value (if present and truthy) is a string,
every invocation of the scope check reaches a decision (grant or 403); a
truthy non-string `"scope"` value (for example a JSON array of scope names)
instead hits the unhandled `.split()` attribute error, reaching neither. -/
theorem c10_scope_checker_totality (claims : ClaimSet) (rs : String) (v : JValue) :
    (scopeStrOk claims = true → isDecision (scope_checker rs claims) = true) ∧
    (cget claims "scope" = some v → truthy v = true → jIsStr v = false →
      scope_checker rs claims = ScopeOutcome.typeError) := by
  constructor
  · intro hstr
    unfold scopeStrOk at hstr
    cases h : cget claims "scope" with
    | none =>
      by_cases hm : rs ∈ ([] : List String) <;>
        simp [scope_checker, h, truthy, isDecision, hm]
    | some w =>
      cases w with
      | str s =>
        by_cases hs : s = ""
        · subst hs
          simp [scope_checker, h, truthy, isDecision]
        · by_cases hm : rs ∈ pySplitWs s <;>
            simp [scope_checker, h, truthy, hs, isDecision, hm]
      | num n => rw [h] at hstr; simp at hstr
      | boolean b => rw [h] at hstr; simp at hstr
      | null => rw [h] at hstr; simp at hstr
      | arr xs => rw [h] at hstr; simp at hstr
  · intro h1 h2 h3
    cases v with
    | str s => simp [jIsStr] at h3
    | num n => simp [scope_checker, h1, h2]
    | boolean b => simp [scope_checker, h1, h2]
    | null => simp [truthy] at h2
    | arr xs => simp [scope_checker, h1, h2]

theorem c10_scope_checker_totality_witness :
    (scopeStrOk [("scope", JValue.arr ["read"])] = true →
      isDecision (scope_checker "read" [("scope", JValue.arr ["read"])]) = true) ∧
    (cget [("scope", JValue.arr ["read"])] "scope" = some (JValue.arr ["read"]) →
      truthy (JValue.arr ["read"]) = true → jIsStr (JValue.arr ["read"]) = false →
      scope_checker "read" [("scope", JValue.arr ["read"])] = ScopeOutcome.typeError) :=
  c10_scope_checker_totality [("scope", JValue.arr ["read"])] "read" (JValue.arr ["read"])

theorem http_bearer_error_status (req : Request) (p : Nat × String)
    (h : http_bearer req = Except.error p) : p.1 = 403 := by
  obtain ⟨auth⟩ := req
  cases auth with
  | none =>
    simp only [http_bearer] at h
    cases h
    rfl
  | some a =>
    simp only [http_bearer] at h
    split at h
    next => cases h; rfl
    next =>
      split at h
      next => cases h
      next => cases h; rfl

/-- Claim C3 (as stated, refuted): a request to a scope-protected endpoint
with no `Authorization` header is rejected by `HTTPBearer` with status 403
("Not authenticated", no `WWW-Authenticate` header), not with the claimed
401 plus `WWW-Authenticate: Bearer`; the repository's own test
`test_protected_endpoint_no_auth` asserts exactly this 403. -/
theorem c3_counterexample :
    access_gate (fun _ => Except.error VerificationError.malformed) (some "read")
        ⟨none⟩ =
      GateOutcome.rejected 403 "Not authenticated" [] ∧
    (403 : Nat) ≠ 401 := by
  constructor
  · decide
  · decide

/-- Claim C3 (amended): a request to a scope-protected endpoint that carries
no bearer token (missing `Authorization` header or wrong scheme) is rejected
with HTTP status 403 and no `WWW-Authenticate` header — the FastAPI
`HTTPBearer` default asserted by the repository's test — and the rejection
happens before any verification or scope check: the outcome is the same for
every verifier and every required scope. -/
theorem c3_no_credentials_rejected (vf : String → Except VerificationError ClaimSet)
    (sc : Option String) (req : Request) (p : Nat × String)
    (h : http_bearer req = Except.error p) :
    access_gate vf sc req = GateOutcome.rejected 403 p.2 [] := by
  have h403 := http_bearer_error_status req p h
  simp only [access_gate, h, ← h403]

theorem c3_no_credentials_rejected_witness :
    access_gate (fun _ => Except.ok [("scope", JValue.str "read")]) (some "read")
        ⟨none⟩ =
      GateOutcome.rejected 403 "Not authenticated" [] :=
  c3_no_credentials_rejected (fun _ => Except.ok [("scope", JValue.str "read")])
    (some "read") ⟨none⟩ (403, "Not authenticated") (by decide)

/-- Claim C4: whenever the presented token fails verification — for any
error in the taxonomy (`malformed`, `unsupportedAlgorithm`, `unknownKey`,
`badSignature`, `expired`, `notYetValid`, `keySourceUnavailable`) — the gate
rejects with HTTP status 401 and a `WWW-Authenticate: Bearer` header; the
failure resolves to a rejection outcome, never propagating past the gate. -/
theorem c4_verification_failure_401 (vf : String → Except VerificationError ClaimSet)
    (sc : Option String) (req : Request) (raw : String) (e : VerificationError)
    (hex : http_bearer req = Except.ok raw) (hv : vf raw = Except.error e) :
    access_gate vf sc req =
      GateOutcome.rejected 401 (invalid_token_detail e)
        [("WWW-Authenticate", "Bearer")] := by
  simp only [access_gate, hex, hv]

theorem c4_verification_failure_401_witness :
    access_gate (fun _ => Except.error VerificationError.badSignature) (some "read")
        ⟨some "Bearer tok"⟩ =
      GateOutcome.rejected 401 (invalid_token_detail VerificationError.badSignature)
        [("WWW-Authenticate", "Bearer")] :=
  c4_verification_failure_401 (fun _ => Except.error VerificationError.badSignature)
    (some "read") ⟨some "Bearer tok"⟩ "tok" VerificationError.badSignature
    (by decide) rfl

/-- Claim C5: a request bearing a validly verified token that lacks the
endpoint's required scope is rejected with HTTP status 403, and the
response detail names the required scope
(`"Insufficient scope. Required: " ++ rs`). -/
theorem c5_insufficient_scope_403 (vf : String → Except VerificationError ClaimSet)
    (rs : String) (req : Request) (raw : String) (claims : ClaimSet) (d : String)
    (hex : http_bearer req = Except.ok raw) (hv : vf raw = Except.ok claims)
    (hchk : scope_checker rs claims = ScopeOutcome.forbidden d) :
    access_gate vf (some rs) req = GateOutcome.rejected 403 d [] ∧
      d = "Insufficient scope. Required: " ++ rs := by
  refine ⟨?_, scope_checker_forbidden_detail rs claims d hchk⟩
  simp only [access_gate, hex, hv, hchk]

theorem c5_insufficient_scope_403_witness :
    (access_gate (fun _ => Except.ok [("scope", JValue.str "write")]) (some "read")
        ⟨some "Bearer tok"⟩ =
      GateOutcome.rejected 403 "Insufficient scope. Required: read" [] ∧
      "Insufficient scope. Required: read" = "Insufficient scope. Required: " ++ "read") :=
  c5_insufficient_scope_403 (fun _ => Except.ok [("scope", JValue.str "write")])
    "read" ⟨some "Bearer tok"⟩ "tok" [("scope", JValue.str "write")]
    "Insufficient scope. Required: read" (by decide) rfl (by decide)

theorem verify_token_resolved (checkSig : SigOracle) (cache : Option KeySet)
    (fetches : List (Option KeySet)) (now : Int) (tok : Token) (k : SigningKey)
    (hres : (get_signing_key cache fetches tok.header.kid).1 = Except.ok k) :
    (verify_token checkSig cache fetches now tok).1 =
      jwt_decode checkSig k.key ["RS256"] now tok := by
  simp only [verify_token, hres]

/-- Claim C1 (as stated, refuted): a token declaring `HS256` whose `kid` is
absent from the key set fails with `unknownKey`, not `unsupportedAlgorithm`
— key resolution (line 38 of `api.py`) runs before the algorithm check
inside `jwt.decode` — even though the signature oracle here accepts
everything ("the signature would validate under the declared algorithm"). -/
theorem c1_counterexample :
    (verify_token (fun _ _ _ => true) (some [⟨"k1", "pub"⟩]) [some [⟨"k1", "pub"⟩]] 0
        ⟨⟨"HS256", "evil"⟩, [("sub", JValue.str "u")], "s"⟩).1 =
      Except.error VerificationError.unknownKey ∧
    (verify_token (fun _ _ _ => true) (some [⟨"k1", "pub"⟩]) [some [⟨"k1", "pub"⟩]] 0
        ⟨⟨"HS256", "evil"⟩, [("sub", JValue.str "u")], "s"⟩).1 ≠
      Except.error VerificationError.unsupportedAlgorithm := by
  constructor
  · decide
  · decide

/-- Claim C1 (amended): for every presented token whose header declares an
algorithm other than RS256, verification never succeeds — for any signature
oracle, so even if the signature would validate under the declared
algorithm — and whenever key resolution succeeds the failure is
`unsupportedAlgorithm` (when key resolution fails first, the failure is the
key-resolution error instead); the verifier passes the pinned list
`["RS256"]` to the decode step, never the token's declared algorithm. -/
theorem c1_algorithm_pinned (checkSig : SigOracle) (cache : Option KeySet)
    (fetches : List (Option KeySet)) (now : Int) (tok : Token) (k : SigningKey)
    (halg : tok.header.alg ≠ "RS256") :
    isOkResult (verify_token checkSig cache fetches now tok).1 = false ∧
    ((get_signing_key cache fetches tok.header.kid).1 = Except.ok k →
      (verify_token checkSig cache fetches now tok).1 =
        Except.error VerificationError.unsupportedAlgorithm) := by
  constructor
  · cases hres : (get_signing_key cache fetches tok.header.kid).1 with
    | ok k0 =>
      rw [verify_token_resolved checkSig cache fetches now tok k0 hres]
      simp [jwt_decode, halg, isOkResult]
    | error e =>
      cases e <;> simp [verify_token, hres, isOkResult]
  · intro hres
    rw [verify_token_resolved checkSig cache fetches now tok k hres]
    simp [jwt_decode, halg]

theorem c1_algorithm_pinned_witness :
    isOkResult (verify_token (fun _ _ _ => true) (some [⟨"k1", "pub"⟩]) [] 0
        ⟨⟨"HS256", "k1"⟩, [("sub", JValue.str "u")], "s"⟩).1 = false ∧
    ((get_signing_key (some [⟨"k1", "pub"⟩]) [] "k1").1 = Except.ok ⟨"k1", "pub"⟩ →
      (verify_token (fun _ _ _ => true) (some [⟨"k1", "pub"⟩]) [] 0
          ⟨⟨"HS256", "k1"⟩, [("sub", JValue.str "u")], "s"⟩).1 =
        Except.error VerificationError.unsupportedAlgorithm) :=
  c1_algorithm_pinned (fun _ _ _ => true) (some [⟨"k1", "pub"⟩]) [] 0
    ⟨⟨"HS256", "k1"⟩, [("sub", JValue.str "u")], "s"⟩ ⟨"k1", "pub"⟩ (by decide)

theorem verify_token_fetch_count (checkSig : SigOracle) (cache : Option KeySet)
    (fetches : List (Option KeySet)) (now : Int) (tok : Token) :
    (verify_token checkSig cache fetches now tok).2.1 =
      (get_signing_key cache fetches tok.header.kid).2.1 := by
  simp only [verify_token]
  split <;> rfl

/-- Claim C6: with a cached key set that lacks the token's `kid`, key
resolution consumes at most one fetch for any fetch environment, and with a
successful re-fetch it consumes exactly one; after that single refresh,
verification succeeds when the key is then present (and the token is
otherwise valid) and fails with `unknownKey` when it is still absent. -/
theorem c6_single_refresh (checkSig : SigOracle) (ks ksr : KeySet)
    (rest fs : List (Option KeySet)) (now : Int) (tok : Token) (k : SigningKey)
    (hmiss : lookupKid ks tok.header.kid = none) :
    (verify_token checkSig (some ks) fs now tok).2.1 ≤ 1 ∧
    (verify_token checkSig (some ks) (some ksr :: rest) now tok).2.1 = 1 ∧
    (lookupKid ksr tok.header.kid = none →
      (verify_token checkSig (some ks) (some ksr :: rest) now tok).1 =
        Except.error VerificationError.unknownKey) ∧
    (lookupKid ksr tok.header.kid = some k → tok.header.alg = "RS256" →
      checkSig "RS256" k.key tok = true → validateClaims now tok.payload = none →
      (verify_token checkSig (some ks) (some ksr :: rest) now tok).1 =
        Except.ok tok.payload) := by
  have hcount : ∀ gfs : List (Option KeySet),
      (get_signing_key (some ks) gfs tok.header.kid).2.1 = 1 := by
    intro gfs
    simp only [get_signing_key, hmiss, refreshOnce]
    cases gfs with
    | nil => rfl
    | cons o t =>
      cases o with
      | none => rfl
      | some ksx =>
        cases hl : lookupKid ksx tok.header.kid <;> simp [hl]
  refine ⟨?_, ?_, ?_, ?_⟩
  · rw [verify_token_fetch_count, hcount fs]
  · rw [verify_token_fetch_count, hcount (some ksr :: rest)]
  · intro habs
    have hg : get_signing_key (some ks) (some ksr :: rest) tok.header.kid =
        (Except.error KeyErr.notFound, 1, some ksr) := by
      simp [get_signing_key, hmiss, refreshOnce, habs]
    simp [verify_token, hg]
  · intro hhit halg hsig htemp
    have hg : get_signing_key (some ks) (some ksr :: rest) tok.header.kid =
        (Except.ok k, 1, some ksr) := by
      simp [get_signing_key, hmiss, refreshOnce, hhit]
    have hg1 : (get_signing_key (some ks) (some ksr :: rest) tok.header.kid).1 =
        Except.ok k := by rw [hg]
    rw [verify_token_resolved checkSig (some ks) (some ksr :: rest) now tok k hg1]
    rw [jwt_decode, halg] at *
    simp [hsig, htemp]

theorem c6_single_refresh_witness :
    (verify_token (fun _ _ _ => true) (some [⟨"old", "p"⟩]) [] 0
        ⟨⟨"RS256", "k2"⟩, [("sub", JValue.str "u")], "s"⟩).2.1 ≤ 1 ∧
    (verify_token (fun _ _ _ => true) (some [⟨"old", "p"⟩]) [some [⟨"k2", "pub2"⟩]] 0
        ⟨⟨"RS256", "k2"⟩, [("sub", JValue.str "u")], "s"⟩).2.1 = 1 ∧
    (lookupKid [⟨"k2", "pub2"⟩] "k2" = none →
      (verify_token (fun _ _ _ => true) (some [⟨"old", "p"⟩]) [some [⟨"k2", "pub2"⟩]] 0
          ⟨⟨"RS256", "k2"⟩, [("sub", JValue.str "u")], "s"⟩).1 =
        Except.error VerificationError.unknownKey) ∧
    (lookupKid [⟨"k2", "pub2"⟩] "k2" = some ⟨"k2", "pub2"⟩ → "RS256" = "RS256" →
      (fun (_ : String) (_ : String) (_ : Token) => true) "RS256" "pub2"
          ⟨⟨"RS256", "k2"⟩, [("sub", JValue.str "u")], "s"⟩ = true →
      validateClaims 0 [("sub", JValue.str "u")] = none →
      (verify_token (fun _ _ _ => true) (some [⟨"old", "p"⟩]) [some [⟨"k2", "pub2"⟩]] 0
          ⟨⟨"RS256", "k2"⟩, [("sub", JValue.str "u")], "s"⟩).1 =
        Except.ok [("sub", JValue.str "u")]) :=
  c6_single_refresh (fun _ _ _ => true) [⟨"old", "p"⟩] [⟨"k2", "pub2"⟩] []
    [] 0 ⟨⟨"RS256", "k2"⟩, [("sub", JValue.str "u")], "s"⟩ ⟨"k2", "pub2"⟩ (by decide)

/-- Claim C7: verification does not enforce the audience claim — for any
token that passes structure, algorithm, key resolution, signature and
temporal checks, verification succeeds, with no hypothesis on whether an
`aud` claim is present in the payload or what value it holds (the decode
step is invoked with `verify_aud: False` and never reads `"aud"`). -/
theorem c7_audience_not_enforced (checkSig : SigOracle) (cache : Option KeySet)
    (fetches : List (Option KeySet)) (now : Int) (tok : Token) (k : SigningKey)
    (hres : (get_signing_key cache fetches tok.header.kid).1 = Except.ok k)
    (halg : tok.header.alg = "RS256")
    (hsig : checkSig "RS256" k.key tok = true)
    (htemp : validateClaims now tok.payload = none) :
    (verify_token checkSig cache fetches now tok).1 = Except.ok tok.payload := by
  rw [verify_token_resolved checkSig cache fetches now tok k hres]
  rw [jwt_decode, halg] at *
  simp [hsig, htemp]

theorem c7_audience_not_enforced_witness :
    (verify_token (fun _ _ _ => true) (some [⟨"k1", "pub"⟩]) [] 100
        ⟨⟨"RS256", "k1"⟩, [("aud", JValue.str "someone-else"), ("sub", JValue.str "u"),
          ("exp", JValue.num 200)], "s"⟩).1 =
      Except.ok [("aud", JValue.str "someone-else"), ("sub", JValue.str "u"),
        ("exp", JValue.num 200)] :=
  c7_audience_not_enforced (fun _ _ _ => true) (some [⟨"k1", "pub"⟩]) [] 100
    ⟨⟨"RS256", "k1"⟩, [("aud", JValue.str "someone-else"), ("sub", JValue.str "u"),
      ("exp", JValue.num 200)], "s"⟩ ⟨"k1", "pub"⟩ (by decide) rfl rfl (by decide)

/-- Claim C8 (as stated, refuted): a token whose `exp` is in the past but
whose signature is invalid fails with `badSignature`, not `expired` — the
signature is verified before the temporal claims, so "regardless of
signature validity" does not hold. -/
theorem c8_counterexample :
    (verify_token (fun _ _ _ => false) (some [⟨"k1", "pub"⟩]) [] 100
        ⟨⟨"RS256", "k1"⟩, [("exp", JValue.num 0)], "s"⟩).1 =
      Except.error VerificationError.badSignature ∧
    (verify_token (fun _ _ _ => false) (some [⟨"k1", "pub"⟩]) [] 100
        ⟨⟨"RS256", "k1"⟩, [("exp", JValue.num 0)], "s"⟩).1 ≠
      Except.error VerificationError.expired := by
  constructor
  · decide
  · decide

/-- Claim C8 (amended): a token whose payload contains an `exp` claim in the
past fails with `expired` provided the algorithm, key-resolution and
signature checks pass (and `nbf` does not independently reject it); a token
whose `nbf` claim lies in the future fails with `notYetValid` under the
same prior checks.  A token failing an earlier check — for example an
invalid signature — reports that earlier failure instead. -/
theorem c8_temporal_claims (checkSig : SigOracle) (cache : Option KeySet)
    (fetches : List (Option KeySet)) (now : Int) (tok : Token) (k : SigningKey)
    (e b : Int)
    (hres : (get_signing_key cache fetches tok.header.kid).1 = Except.ok k)
    (halg : tok.header.alg = "RS256")
    (hsig : checkSig "RS256" k.key tok = true)
    (hiat : validateIat tok.payload = none) :
    (validateNbf now tok.payload = none →
      cget tok.payload "exp" = some (JValue.num e) → e < now →
      (verify_token checkSig cache fetches now tok).1 =
        Except.error VerificationError.expired) ∧
    (cget tok.payload "nbf" = some (JValue.num b) → now < b →
      (verify_token checkSig cache fetches now tok).1 =
        Except.error VerificationError.notYetValid) := by
  constructor
  · intro hnbf hexp hlt
    have hv : validateClaims now tok.payload = some VerificationError.expired := by
      simp [validateClaims, hiat, hnbf, validateExp, hexp, le_of_lt hlt]
    rw [verify_token_resolved checkSig cache fetches now tok k hres]
    rw [jwt_decode, halg] at *
    simp [hsig, hv]
  · intro hnbf hlt
    have hv : validateClaims now tok.payload =
        some VerificationError.notYetValid := by
      simp [validateClaims, hiat, validateNbf, hnbf, hlt]
    rw [verify_token_resolved checkSig cache fetches now tok k hres]
    rw [jwt_decode, halg] at *
    simp [hsig, hv]

theorem c8_temporal_claims_witness :
    (validateNbf 100 [("exp", JValue.num 0)] = none →
      cget [("exp", JValue.num 0)] "exp" = some (JValue.num 0) → (0 : Int) < 100 →
      (verify_token (fun _ _ _ => true) (some [⟨"k1", "pub"⟩]) [] 100
          ⟨⟨"RS256", "k1"⟩, [("exp", JValue.num 0)], "s"⟩).1 =
        Except.error VerificationError.expired) ∧
    (cget [("exp", JValue.num 0)] "nbf" = some (JValue.num 500) → (100 : Int) < 500 →
      (verify_token (fun _ _ _ => true) (some [⟨"k1", "pub"⟩]) [] 100
          ⟨⟨"RS256", "k1"⟩, [("exp", JValue.num 0)], "s"⟩).1 =
        Except.error VerificationError.notYetValid) :=
  c8_temporal_claims (fun _ _ _ => true) (some [⟨"k1", "pub"⟩]) [] 100
    ⟨⟨"RS256", "k1"⟩, [("exp", JValue.num 0)], "s"⟩ ⟨"k1", "pub"⟩ 0 500
    (by decide) rfl rfl (by decide)
